import Mathlib

/-!
# SystemDashboard: a shallow embedding of `src/SystemDashboard.jsx`

The React component `SystemDashboard` holds three pieces of state
(`systemInfo`, `loading`, `error`), polls `BACKEND_URL/system-info` every five
seconds through the async closure `fetchSystemInfo`, and renders one of four
views.  This file embeds

* the JavaScript values that a parsed JSON document is made of, together with
  the operators the component applies to them (`||`, `?.`, `.`, `!== null`,
  template literals, `toFixed(2)`, truthiness);
* the JSX of the metric grid, evaluated in two phases exactly like React does
  it: first the component function evaluates every child expression (this is
  where a `TypeError` is thrown), then React turns the children into text
  (this is where an object child is rejected);
* the state update performed by one completed `fetchSystemInfo` call;
* the mounted component, which React unmounts when a render throws and whose
  setters do nothing once it is unmounted;
* the lifecycle of the polling effect (initial fetch, interval, cleanup).

The numbers of the runtime are IEEE doubles.  Their three operations that the
component relies on (truthiness, conversion to text, `toFixed(2)`) belong to
the JavaScript engine, not to the repository, and are parameters of the
embedding: every general theorem holds for all of them.
-/

namespace SystemDashboard

/-! ## JavaScript values -/

/-- The operations of the JavaScript engine on its numbers `N` that the
component uses. -/
structure NumberOps (N : Type) where
  /-- The conversion `ToBoolean` on a number, negated: true exactly for `+0`,
  `-0` and `NaN`. -/
  isFalsy : N → Bool
  /-- The conversion `Number::toString` in radix 10, which React applies to a
  number child and a template literal to an embedded number. -/
  numToString : N → String
  /-- The method call `x.toFixed(2)`. -/
  toFixed2 : N → String

/-- A JavaScript value as it can reach the component: the values produced by
`JSON.parse` (null, booleans, numbers, strings, arrays, plain objects) and
`undefined`, which is what reading a missing property yields. -/
inductive JSValue (N : Type) where
  | undefined : JSValue N
  | null : JSValue N
  | bool (b : Bool) : JSValue N
  | num (x : N) : JSValue N
  | str (s : String) : JSValue N
  | arr (items : List (JSValue N)) : JSValue N
  | obj (props : List (String × JSValue N)) : JSValue N

/-- The exceptions that evaluating and mounting the metric grid can raise. -/
inductive RenderError where
  /-- Reading property `prop` of `undefined` (`ofNull = false`) or of `null`
  (`ofNull = true`): "TypeError: Cannot read properties of undefined". -/
  | cannotReadProperty (ofNull : Bool) (prop : String) : RenderError
  /-- Calling a property that is not a function:
  "TypeError: x.toFixed is not a function". -/
  | notAFunction (prop : String) : RenderError
  /-- String conversion of an object whose own `toString` is not callable:
  "TypeError: Cannot convert object to primitive value". -/
  | cannotConvertToPrimitive : RenderError
  /-- React refusing a plain object among the children of an element:
  "Objects are not valid as a React child". -/
  | invalidChild : RenderError
  deriving DecidableEq, Repr

deriving instance DecidableEq for Except

namespace JSValue

variable {N : Type}

/-- JavaScript truthiness (`ToBoolean`): `undefined`, `null`, `false`, the
falsy numbers and the empty string are falsy, every other value is truthy. -/
def truthy (R : NumberOps N) : JSValue N → Bool
  | .undefined => false
  | .null => false
  | .bool b => b
  | .num x => !R.isFalsy x
  | .str s => decide (s ≠ "")
  | .arr _ => true
  | .obj _ => true

/-- The operator `a || b`: `a` when it is truthy, else `b`. -/
def or (R : NumberOps N) (a b : JSValue N) : JSValue N :=
  if a.truthy R then a else b

/-- The test `a !== null`: only the value `null` itself is strictly equal to
`null`; in particular `undefined !== null` holds. -/
def strictNeNull : JSValue N → Bool
  | .null => false
  | _ => true

/-- Own property `k` of an object given by its list of properties (the first
binding of a key is the effective one); `undefined` when there is none. -/
def lookup (k : String) : List (String × JSValue N) → JSValue N
  | [] => .undefined
  | (k', v) :: rest => if k' = k then v else lookup k rest

/-- Whether the object has an own property `k`. -/
def hasOwn (k : String) : List (String × JSValue N) → Bool
  | [] => false
  | (k', _) :: rest => if k' = k then true else hasOwn k rest

/-- The member access `v.k`.  It throws on `undefined` and `null`, reads the
own property of an object, and yields `undefined` on every other value: none
of the property names the component reads is a built-in property of strings,
numbers, booleans, arrays or `Object.prototype`. -/
def getProp (v : JSValue N) (k : String) : Except RenderError (JSValue N) :=
  match v with
  | .undefined => .error (.cannotReadProperty false k)
  | .null => .error (.cannotReadProperty true k)
  | .obj props => .ok (lookup k props)
  | _ => .ok .undefined

/-- The optional chain `v?.k`: `undefined` when `v` is `undefined` or `null`,
else the member access, which then cannot throw. -/
def optChain (v : JSValue N) (k : String) : JSValue N :=
  match v with
  | .obj props => lookup k props
  | _ => .undefined

/-- The call `v.toFixed(2)` on an arbitrary value: only numbers have the
method; on `undefined` and `null` the property read throws, on anything else
the property is not a function. -/
def callToFixed2 (R : NumberOps N) (v : JSValue N) : Except RenderError (JSValue N) :=
  match v with
  | .num x => .ok (.str (R.toFixed2 x))
  | .undefined => .error (.cannotReadProperty false "toFixed")
  | .null => .error (.cannotReadProperty true "toFixed")
  | _ => .error (.notAFunction "toFixed")

mutual
/-- The conversion `ToString` that a template literal applies to an embedded
value.  An array is joined with commas; an object gives `[object Object]`
unless an own `toString` property (never callable in a JSON document) shadows
the inherited method, in which case the conversion throws. -/
def toStr (R : NumberOps N) : JSValue N → Except RenderError String
  | .undefined => .ok "undefined"
  | .null => .ok "null"
  | .bool b => .ok (if b then "true" else "false")
  | .num x => .ok (R.numToString x)
  | .str s => .ok s
  | .arr items => joinItems R items
  | .obj props =>
    if hasOwn "toString" props then .error .cannotConvertToPrimitive
    else .ok "[object Object]"
termination_by structural v => v
/-- The method `Array.prototype.join` with the default separator: `undefined`
and `null` elements contribute the empty string. -/
def joinItems (R : NumberOps N) : List (JSValue N) → Except RenderError String
  | [] => .ok ""
  | v :: rest =>
    match (match v with
      | .undefined => Except.ok ""
      | .null => Except.ok ""
      | w => toStr R w) with
    | .error e => .error e
    | .ok s =>
      match joinItems R rest with
      | .error e => .error e
      | .ok t => .ok (s ++ (match rest with | [] => "" | _ => ",") ++ t)
termination_by structural l => l
end

mutual
/-- The text React mounts for one child of an element: strings and numbers
become text, booleans, `null` and `undefined` render nothing, an array renders
its items in order, and a plain object is rejected. -/
def childText (R : NumberOps N) : JSValue N → Except RenderError String
  | .undefined => .ok ""
  | .null => .ok ""
  | .bool _ => .ok ""
  | .num x => .ok (R.numToString x)
  | .str s => .ok s
  | .arr items => childrenText R items
  | .obj _ => .error .invalidChild
termination_by structural v => v
/-- The text of a list of children, in order. -/
def childrenText (R : NumberOps N) : List (JSValue N) → Except RenderError String
  | [] => .ok ""
  | v :: rest =>
    match childText R v with
    | .error e => .error e
    | .ok s =>
      match childrenText R rest with
      | .error e => .error e
      | .ok t => .ok (s ++ t)
termination_by structural l => l
end

end JSValue

open JSValue

variable {N : Type}

/-! ## The metric grid (the last `return` of the component) -/

/-- The children of one JSX element, as the component function leaves them:
literal text and the values of the embedded expressions. -/
abbrev Line (N : Type) := List (JSValue N)

/-- The ternary `c ? v.toFixed(2) : N/A` that guards `ram.used`, `ram.total`
and `gpu.load`. -/
def fixedOrNA (R : NumberOps N) (v : JSValue N) : Except RenderError (JSValue N) :=
  if v.truthy R then callToFixed2 R v else .ok (.str "N/A")

/-- Current Time panel: the child `systemInfo.current_time || N/A`. -/
def currentTimeLine (R : NumberOps N) (systemInfo : JSValue N) :
    Except RenderError (Line N) := do
  let v ← getProp systemInfo "current_time"
  pure [JSValue.or R v (.str "N/A")]

/-- Python Version panel: the child `systemInfo.python_version || N/A`. -/
def pythonVersionLine (R : NumberOps N) (systemInfo : JSValue N) :
    Except RenderError (Line N) := do
  let v ← getProp systemInfo "python_version"
  pure [JSValue.or R v (.str "N/A")]

/-- First child of the Battery paragraph: when `systemInfo.battery?.percent`
is not `null`, the template literal over `systemInfo.battery.percent` (a plain
member access) followed by `%`, else `N/A`. -/
def batteryPercent (R : NumberOps N) (systemInfo : JSValue N) :
    Except RenderError (JSValue N) := do
  let battery ← getProp systemInfo "battery"
  if (optChain battery "percent").strictNeNull then
    let percent ← getProp battery "percent"
    let s ← toStr R percent
    pure (.str (s ++ "%"))
  else
    pure (.str "N/A")

/-- Second child of the Battery paragraph: when
`systemInfo.battery?.power_plugged` is not `null`, the charging label chosen by
the truthiness of `systemInfo.battery.power_plugged`, in parentheses after a
blank; else the empty string. -/
def batteryPlugged (R : NumberOps N) (systemInfo : JSValue N) :
    Except RenderError (JSValue N) := do
  let battery ← getProp systemInfo "battery"
  if (optChain battery "power_plugged").strictNeNull then
    let plugged ← getProp battery "power_plugged"
    pure (.str (" (" ++ (if plugged.truthy R then "Charging" else "Not Charging") ++ ")"))
  else
    pure (.str "")

/-- Battery panel: one paragraph with the two children above. -/
def batteryLine (R : NumberOps N) (systemInfo : JSValue N) :
    Except RenderError (Line N) := do
  let a ← batteryPercent R systemInfo
  let b ← batteryPlugged R systemInfo
  pure [a, b]

/-- CPU panel, first paragraph: `Usage: ` then `systemInfo.cpu?.usage || N/A`
then `%`. -/
def cpuUsageLine (R : NumberOps N) (systemInfo : JSValue N) :
    Except RenderError (Line N) := do
  let cpu ← getProp systemInfo "cpu"
  pure [.str "Usage: ", JSValue.or R (optChain cpu "usage") (.str "N/A"), .str "%"]

/-- CPU panel, second paragraph: `Temperature: ` then, when
`systemInfo.cpu?.temperature` is not `null`, the template literal over
`systemInfo.cpu.temperature` followed by the unit as the source file spells it;
else `N/A`. -/
def cpuTemperatureLine (R : NumberOps N) (systemInfo : JSValue N) :
    Except RenderError (Line N) := do
  let cpu ← getProp systemInfo "cpu"
  if (optChain cpu "temperature").strictNeNull then
    let temperature ← getProp cpu "temperature"
    let s ← toStr R temperature
    pure [.str "Temperature: ", .str (s ++ "Â°C")]
  else
    pure [.str "Temperature: ", .str "N/A"]

/-- RAM panel, first paragraph: `Used: `, the guarded `toFixed(2)` of
`ram.used`, ` GB`. -/
def ramUsedLine (R : NumberOps N) (systemInfo : JSValue N) :
    Except RenderError (Line N) := do
  let ram ← getProp systemInfo "ram"
  let v ← fixedOrNA R (optChain ram "used")
  pure [.str "Used: ", v, .str " GB"]

/-- RAM panel, second paragraph: `Total: `, the guarded `toFixed(2)` of
`ram.total`, ` GB`. -/
def ramTotalLine (R : NumberOps N) (systemInfo : JSValue N) :
    Except RenderError (Line N) := do
  let ram ← getProp systemInfo "ram"
  let v ← fixedOrNA R (optChain ram "total")
  pure [.str "Total: ", v, .str " GB"]

/-- RAM panel, third paragraph: `Usage: `, `systemInfo.ram?.percent || N/A`,
`%`. -/
def ramUsageLine (R : NumberOps N) (systemInfo : JSValue N) :
    Except RenderError (Line N) := do
  let ram ← getProp systemInfo "ram"
  pure [.str "Usage: ", JSValue.or R (optChain ram "percent") (.str "N/A"), .str "%"]

/-- GPU panel: when `systemInfo.gpu` is truthy the three paragraphs Name, Load
and Memory, else the single paragraph `No GPU detected`. -/
def gpuLines (R : NumberOps N) (systemInfo : JSValue N) :
    Except RenderError (List (Line N)) := do
  let gpu ← getProp systemInfo "gpu"
  if gpu.truthy R then
    let name ← getProp gpu "name"
    let load ← getProp gpu "load"
    let loadText ← fixedOrNA R load
    let used ← getProp gpu "memory_used"
    let total ← getProp gpu "memory_total"
    pure [[.str "Name: ", JSValue.or R name (.str "N/A")],
          [.str "Load: ", loadText, .str "%"],
          [.str "Memory: ", JSValue.or R used (.str "N/A"), .str " / ",
            JSValue.or R total (.str "N/A"), .str " MB"]]
  else
    pure [[.str "No GPU detected"]]

/-- Location panel: city, region and country, each defaulting to `Unknown`.
The JSX text between two of the expressions is a comma followed by a line
break, which JSX trims to the bare comma. -/
def locationLine (R : NumberOps N) (systemInfo : JSValue N) :
    Except RenderError (Line N) := do
  let location ← getProp systemInfo "location"
  pure [JSValue.or R (optChain location "city") (.str "Unknown"), .str ",",
        JSValue.or R (optChain location "region") (.str "Unknown"), .str ",",
        JSValue.or R (optChain location "country") (.str "Unknown")]

/-- The paragraphs of the seven panels of the grid; `α` is `Line` for the
element the component returns and `String` for the mounted text. -/
structure Grid (α : Type) where
  currentTime : α
  pythonVersion : α
  battery : α
  cpuUsage : α
  cpuTemperature : α
  ramUsed : α
  ramTotal : α
  ramUsage : α
  gpu : List α
  location : α
  deriving DecidableEq, Repr

/-- Evaluation of the grid JSX by the component function, panel after panel in
source order; the first exception aborts the render. -/
def metricGrid (R : NumberOps N) (systemInfo : JSValue N) :
    Except RenderError (Grid (Line N)) := do
  let currentTime ← currentTimeLine R systemInfo
  let pythonVersion ← pythonVersionLine R systemInfo
  let battery ← batteryLine R systemInfo
  let cpuUsage ← cpuUsageLine R systemInfo
  let cpuTemperature ← cpuTemperatureLine R systemInfo
  let ramUsed ← ramUsedLine R systemInfo
  let ramTotal ← ramTotalLine R systemInfo
  let ramUsage ← ramUsageLine R systemInfo
  let gpu ← gpuLines R systemInfo
  let location ← locationLine R systemInfo
  pure { currentTime, pythonVersion, battery, cpuUsage, cpuTemperature,
         ramUsed, ramTotal, ramUsage, gpu, location }

/-- The texts of a list of paragraphs, in order. -/
def linesText (R : NumberOps N) : List (Line N) → Except RenderError (List String)
  | [] => .ok []
  | l :: rest =>
    match childrenText R l with
    | .error e => .error e
    | .ok s =>
      match linesText R rest with
      | .error e => .error e
      | .ok ts => .ok (s :: ts)

/-- Mounting of the element returned by the component: every paragraph is
turned into text, in document order. -/
def Grid.text (R : NumberOps N) (g : Grid (Line N)) : Except RenderError (Grid String) := do
  let currentTime ← childrenText R g.currentTime
  let pythonVersion ← childrenText R g.pythonVersion
  let battery ← childrenText R g.battery
  let cpuUsage ← childrenText R g.cpuUsage
  let cpuTemperature ← childrenText R g.cpuTemperature
  let ramUsed ← childrenText R g.ramUsed
  let ramTotal ← childrenText R g.ramTotal
  let ramUsage ← childrenText R g.ramUsage
  let gpu ← linesText R g.gpu
  let location ← childrenText R g.location
  pure { currentTime, pythonVersion, battery, cpuUsage, cpuTemperature,
         ramUsed, ramTotal, ramUsage, gpu, location }

/-- The rendered metric grid of a document: evaluation, then mounting. -/
def renderGrid (R : NumberOps N) (systemInfo : JSValue N) :
    Except RenderError (Grid String) := do
  let g ← metricGrid R systemInfo
  Grid.text R g

/-- The GPU panel as mounted: its paragraphs, evaluated and turned to text. -/
def gpuPanel (R : NumberOps N) (systemInfo : JSValue N) :
    Except RenderError (List String) := do
  let ls ← gpuLines R systemInfo
  linesText R ls

/-! ## Component state and the render branches -/

/-- The three `useState` cells of the component.  The cell `error` is `null`
(here `none`) until a `catch` stores the message of the caught error. -/
structure State (N : Type) where
  systemInfo : JSValue N
  loading : Bool
  error : Option String

/-- The state at mount: `useState(null)`, `useState(true)`, `useState(null)`. -/
def State.initial : State N :=
  { systemInfo := .null, loading := true, error := none }

/-- The test `if (error)`: the cell holds a non-empty string. -/
def errorTruthy : Option String → Bool
  | none => false
  | some m => decide (m ≠ "")

/-- The branch of the component body that produces the returned element:
the loading indicator, the error panel with its details, the yellow
"No system information available" fallback, or the metric grid for the held
document. -/
inductive RenderState (N : Type) where
  | loading : RenderState N
  | error (message : String) : RenderState N
  | fallback : RenderState N
  | ready (doc : JSValue N) : RenderState N

/-- The chain of early returns of the component body:
`if (loading)`, `if (error)`, `if (!systemInfo)`, and the grid. -/
def renderState (R : NumberOps N) (s : State N) : RenderState N :=
  if s.loading then .loading
  else if errorTruthy s.error then .error (s.error.getD "")
  else if !s.systemInfo.truthy R then .fallback
  else .ready s.systemInfo

/-- The fixed list of hints of the error panel. -/
def errorHints : List String :=
  ["Backend server is not running", "Network connectivity issues",
   "Incorrect backend URL", "CORS (Cross-Origin Resource Sharing) restrictions"]

/-- What is on screen. -/
inductive View where
  | loading (text : String) : View
  | error (heading : String) (details : String) (hints : List String) : View
  | fallback (text : String) : View
  | grid (panels : Grid String) : View
  deriving DecidableEq, Repr

/-- The element of each branch, mounted. -/
def RenderState.view (R : NumberOps N) : RenderState N → Except RenderError View
  | .loading => .ok (.loading "Loading system information...")
  | .error message =>
    .ok (.error "Error Fetching System Information" ("Details: " ++ message) errorHints)
  | .fallback =>
    .ok (.fallback "No system information available. Please check your backend.")
  | .ready doc =>
    match renderGrid R doc with
    | .error e => .error e
    | .ok g => .ok (.grid g)

/-- One render of the component. -/
def render (R : NumberOps N) (s : State N) : Except RenderError View :=
  (renderState R s).view R

/-! ## One call of `fetchSystemInfo` -/

/-- What the component observes of an HTTP response: the status code, the body
as `response.text()` resolves it, and the outcome of `response.json()`, which
is the parsed value or the message of the error it rejects with. -/
structure Response (N : Type) where
  status : Nat
  text : String
  json : Except String (JSValue N)

/-- The flag `response.ok`: the status is in the range 200 to 299. -/
def Response.ok (r : Response N) : Bool :=
  decide (200 ≤ r.status) && decide (r.status ≤ 299)

/-- What the network does to one request: `fetch` rejects with an error
carrying `message`, or it resolves with a response. -/
inductive FetchOutcome (N : Type) where
  | rejected (message : String) : FetchOutcome N
  | responded (r : Response N) : FetchOutcome N

/-- The `try` block of `fetchSystemInfo`: the parsed data when the block runs
through, else the message of the error that reaches the `catch`. -/
def tryBlock : FetchOutcome N → Except String (JSValue N)
  | .rejected message => .error message
  | .responded r =>
    if !r.ok then .error ("Network response was not ok: " ++ r.text)
    else r.json

/-- The setter calls of one completed call of `fetchSystemInfo`, applied to
the state cells: on success `setSystemInfo(data); setLoading(false)`, in the
`catch` `setError(err.message); setLoading(false)`. -/
def fetchSystemInfo (s : State N) (o : FetchOutcome N) : State N :=
  match tryBlock o with
  | .ok data => { s with systemInfo := data, loading := false }
  | .error message => { s with error := some message, loading := false }

/-- The setter calls of a sequence of completed fetches, oldest first, all
applied to the state cells.  This disregards unmounting: the states that the
mounted component goes through are among these, see `Component.completeAll`. -/
def applyOutcomes (s : State N) (os : List (FetchOutcome N)) : State N :=
  os.foldl fetchSystemInfo s

/-- The message of the most recent failure in a sequence of completed fetches,
if any of them failed. -/
def lastFailure : List (FetchOutcome N) → Option String
  | [] => none
  | o :: rest =>
    match lastFailure rest with
    | some m => some m
    | none =>
      match tryBlock o with
      | .error m => some m
      | .ok _ => none

/-! ## The mounted component -/

/-- The component as React holds it: the state cells, and whether it is still
mounted.  `App.jsx` puts no error boundary around the component, so React
unmounts it when a render throws and the screen stays empty. -/
structure Component (N : Type) where
  state : State N
  mounted : Bool

/-- The component after its first render, which shows the loading
indicator. -/
def Component.initial : Component N :=
  { state := State.initial, mounted := true }

/-- One completed call of `fetchSystemInfo` as the component lives it.  React
ignores the setter calls of an unmounted component; on a mounted one it
applies them and renders the component again with the new state, and unmounts
it when that render throws. -/
def Component.complete (R : NumberOps N) (c : Component N) (o : FetchOutcome N) :
    Component N :=
  if c.mounted then
    { state := fetchSystemInfo c.state o,
      mounted := match render R (fetchSystemInfo c.state o) with
        | .ok _ => true
        | .error _ => false }
  else c

/-- A sequence of completed fetches, oldest first, as the component lives
them. -/
def Component.completeAll (R : NumberOps N) (c : Component N)
    (os : List (FetchOutcome N)) : Component N :=
  os.foldl (Component.complete R) c

/-- What is on screen: the view of the current state while the component is
mounted, nothing once it is unmounted. -/
def Component.screen (R : NumberOps N) (c : Component N) : Option View :=
  if c.mounted then
    match render R c.state with
    | .ok v => some v
    | .error _ => none
  else none

/-! ## The polling effect -/

/-- The effect `useEffect(..., [BACKEND_URL])` around the component: whether
the effect body has run, whether the interval set by
`setInterval(fetchSystemInfo, 5000)` is still armed, how many calls of
`fetchSystemInfo` are awaiting the network, and how many calls have been
issued so far. -/
structure Poller (N : Type) where
  comp : Component N
  started : Bool
  intervalArmed : Bool
  inFlight : Nat
  issued : Nat

/-- The mounted component before its effect has run. -/
def Poller.initial : Poller N :=
  { comp := Component.initial, started := false, intervalArmed := false,
    inFlight := 0, issued := 0 }

/-- The events of the lifecycle. -/
inductive Event (N : Type) where
  /-- The effect body runs: one immediate call, then `setInterval`. -/
  | start : Event N
  /-- The interval fires. -/
  | tick : Event N
  /-- One awaited call of `fetchSystemInfo` completes with an outcome. -/
  | complete (o : FetchOutcome N) : Event N
  /-- The cleanup runs: `clearInterval(intervalId)`. -/
  | stop : Event N

/-- One step of the lifecycle.

* The effect body runs once, on the mounted component: its only dependency
  `BACKEND_URL` is a constant of the build environment, so React never runs it
  again.
* A cleared interval does not fire.
* A completion needs a call in flight; it goes through `Component.complete`,
  and when the render it causes throws, React unmounts the component and runs
  the cleanup, which clears the interval.
* The cleanup runs when the component is unmounted ("Cleanup interval on
  component unmount" in the source); it clears the interval and aborts no
  request.
Events that are not enabled leave everything unchanged. -/
def Poller.step (R : NumberOps N) (p : Poller N) : Event N → Poller N
  | .start =>
    if p.comp.mounted && !p.started then
      { p with started := true, intervalArmed := true,
               inFlight := p.inFlight + 1, issued := p.issued + 1 }
    else p
  | .tick =>
    if p.intervalArmed then
      { p with inFlight := p.inFlight + 1, issued := p.issued + 1 }
    else p
  | .complete o =>
    if p.inFlight = 0 then p
    else
      { p with comp := p.comp.complete R o,
               intervalArmed := p.intervalArmed && (p.comp.complete R o).mounted,
               inFlight := p.inFlight - 1 }
  | .stop =>
    { p with comp := { p.comp with mounted := false }, intervalArmed := false }

/-- A run of the lifecycle over a list of events, oldest first. -/
def Poller.run (R : NumberOps N) (p : Poller N) (es : List (Event N)) : Poller N :=
  es.foldl (Poller.step R) p

/-! ## Statement vocabulary -/

/-- A completed fetch that succeeded with status 200 and parsed body `d`. -/
def FetchOutcome.success (d : JSValue N) : FetchOutcome N :=
  .responded { status := 200, text := "", json := .ok d }

/-- The nested field `D.outer.inner` of a document, read defensively:
`undefined` when `D` has no object under `outer` or that object has no
`inner`. -/
def field (D : JSValue N) (outer inner : String) : JSValue N :=
  optChain (optChain D outer) inner

/-- The telemetry shape with every field present and of its type: strings for
the time, the version, the GPU name and the location, a boolean for
`power_plugged`, numbers for the rest. -/
structure Telemetry (N : Type) where
  current_time : String
  python_version : String
  battery_percent : N
  battery_power_plugged : Bool
  cpu_usage : N
  cpu_temperature : N
  ram_used : N
  ram_total : N
  ram_percent : N
  gpu_name : String
  gpu_load : N
  gpu_memory_used : N
  gpu_memory_total : N
  location_city : String
  location_region : String
  location_country : String

/-- The JSON document that carries a complete telemetry record. -/
def Telemetry.toJSON (t : Telemetry N) : JSValue N :=
  .obj [("current_time", .str t.current_time),
        ("python_version", .str t.python_version),
        ("battery", .obj [("percent", .num t.battery_percent),
                          ("power_plugged", .bool t.battery_power_plugged)]),
        ("cpu", .obj [("usage", .num t.cpu_usage), ("temperature", .num t.cpu_temperature)]),
        ("ram", .obj [("used", .num t.ram_used), ("total", .num t.ram_total),
                      ("percent", .num t.ram_percent)]),
        ("gpu", .obj [("name", .str t.gpu_name), ("load", .num t.gpu_load),
                      ("memory_used", .num t.gpu_memory_used),
                      ("memory_total", .num t.gpu_memory_total)]),
        ("location", .obj [("city", .str t.location_city), ("region", .str t.location_region),
                           ("country", .str t.location_country)])]

/-- Document `D` has every field of the telemetry shape present and
well-typed, with the values of `t`; it may hold further properties, in any
order. -/
def Conforms (D : JSValue N) (t : Telemetry N) : Prop :=
  optChain D "current_time" = .str t.current_time ∧
  optChain D "python_version" = .str t.python_version ∧
  field D "battery" "percent" = .num t.battery_percent ∧
  field D "battery" "power_plugged" = .bool t.battery_power_plugged ∧
  field D "cpu" "usage" = .num t.cpu_usage ∧
  field D "cpu" "temperature" = .num t.cpu_temperature ∧
  field D "ram" "used" = .num t.ram_used ∧
  field D "ram" "total" = .num t.ram_total ∧
  field D "ram" "percent" = .num t.ram_percent ∧
  field D "gpu" "name" = .str t.gpu_name ∧
  field D "gpu" "load" = .num t.gpu_load ∧
  field D "gpu" "memory_used" = .num t.gpu_memory_used ∧
  field D "gpu" "memory_total" = .num t.gpu_memory_total ∧
  field D "location" "city" = .str t.location_city ∧
  field D "location" "region" = .str t.location_region ∧
  field D "location" "country" = .str t.location_country

/-! ## Sample data used by the concrete evaluations -/

/-- The doubles that occur in the sample documents: 0, 3, 7.5, 12.5, 16, 35,
40, 46.5, 50, 1024 and 8192.  Each is exactly representable. -/
inductive SampleNumber where
  | n0 | n3 | n7_5 | n12_5 | n16 | n35 | n40 | n46_5 | n50 | n1024 | n8192
  deriving DecidableEq, Repr

/-- The operations of JavaScript on the sample numbers: only 0 is falsy;
`String(12.5)` is `12.5` and `(12.5).toFixed(2)` is `12.50`, and so on. -/
def sampleOps : NumberOps SampleNumber where
  isFalsy
    | .n0 => true
    | _ => false
  numToString
    | .n0 => "0"
    | .n3 => "3"
    | .n7_5 => "7.5"
    | .n12_5 => "12.5"
    | .n16 => "16"
    | .n35 => "35"
    | .n40 => "40"
    | .n46_5 => "46.5"
    | .n50 => "50"
    | .n1024 => "1024"
    | .n8192 => "8192"
  toFixed2
    | .n0 => "0.00"
    | .n3 => "3.00"
    | .n7_5 => "7.50"
    | .n12_5 => "12.50"
    | .n16 => "16.00"
    | .n35 => "35.00"
    | .n40 => "40.00"
    | .n46_5 => "46.50"
    | .n50 => "50.00"
    | .n1024 => "1024.00"
    | .n8192 => "8192.00"

/-- A laptop on mains power with a busy GPU. -/
def busyTelemetry : Telemetry SampleNumber :=
  { current_time := "2024-01-01 10:00:00", python_version := "3.11.4",
    battery_percent := .n50, battery_power_plugged := true,
    cpu_usage := .n12_5, cpu_temperature := .n40,
    ram_used := .n7_5, ram_total := .n16, ram_percent := .n46_5,
    gpu_name := "RTX 3060", gpu_load := .n35, gpu_memory_used := .n1024,
    gpu_memory_total := .n8192,
    location_city := "Pune", location_region := "Maharashtra", location_country := "IN" }

/-- The grid that `busyTelemetry` is expected to render as. -/
def busyGrid : Grid String :=
  { currentTime := "2024-01-01 10:00:00",
    pythonVersion := "3.11.4",
    battery := "50% (Charging)",
    cpuUsage := "Usage: 12.5%",
    cpuTemperature := "Temperature: 40Â°C",
    ramUsed := "Used: 7.50 GB",
    ramTotal := "Total: 16.00 GB",
    ramUsage := "Usage: 46.5%",
    gpu := ["Name: RTX 3060", "Load: 35.00%", "Memory: 1024 / 8192 MB"],
    location := "Pune,Maharashtra,IN" }

/-- The same machine five seconds later, its CPU almost idle. -/
def laterTelemetry : Telemetry SampleNumber :=
  { busyTelemetry with current_time := "2024-01-01 10:00:05", cpu_usage := .n3 }

/-- The grid that `laterTelemetry` is expected to render as. -/
def laterGrid : Grid String :=
  { busyGrid with currentTime := "2024-01-01 10:00:05", cpuUsage := "Usage: 3%" }

/-- The same machine with an idle GPU: `gpu.load` is the number 0. -/
def idleGpuTelemetry : Telemetry SampleNumber :=
  { busyTelemetry with gpu_load := .n0 }

/-- A desktop machine: the backend reports `"battery": null`, every other
field as in `busyTelemetry`. -/
def desktopDocument : JSValue SampleNumber :=
  .obj [("current_time", .str "2024-01-01 10:00:00"),
        ("python_version", .str "3.11.4"),
        ("battery", .null),
        ("cpu", .obj [("usage", .num .n12_5), ("temperature", .num .n40)]),
        ("ram", .obj [("used", .num .n7_5), ("total", .num .n16),
                      ("percent", .num .n46_5)]),
        ("gpu", .obj [("name", .str "RTX 3060"), ("load", .num .n35),
                      ("memory_used", .num .n1024), ("memory_total", .num .n8192)]),
        ("location", .obj [("city", .str "Pune"), ("region", .str "Maharashtra"),
                           ("country", .str "IN")])]

/-- A document without a `gpu` property. -/
def noGpuDocument : JSValue SampleNumber :=
  .obj [("battery", .obj [("percent", .num .n50), ("power_plugged", .bool false)]),
        ("cpu", .obj [("usage", .num .n3), ("temperature", .num .n40)])]

/-- A document whose `gpu` object has no `name`. -/
def unnamedGpuDocument : JSValue SampleNumber :=
  .obj [("battery", .obj [("percent", .num .n50), ("power_plugged", .bool false)]),
        ("cpu", .obj [("usage", .num .n3), ("temperature", .num .n40)]),
        ("gpu", .obj [("load", .num .n35), ("memory_used", .num .n1024)])]

/-- The grid that `noGpuDocument` is expected to render as. -/
def noGpuGrid : Grid String :=
  { currentTime := "N/A",
    pythonVersion := "N/A",
    battery := "50% (Not Charging)",
    cpuUsage := "Usage: 3%",
    cpuTemperature := "Temperature: 40Â°C",
    ramUsed := "Used: N/A GB",
    ramTotal := "Total: N/A GB",
    ramUsage := "Usage: N/A%",
    gpu := ["No GPU detected"],
    location := "Unknown,Unknown,Unknown" }

/-- The grid that `unnamedGpuDocument` is expected to render as. -/
def unnamedGpuGrid : Grid String :=
  { noGpuGrid with gpu := ["Name: N/A", "Load: 35.00%", "Memory: 1024 / N/A MB"] }

/-- A document whose `gpu` object has no `name` and reports its load as the
string `35%`. -/
def stringLoadDocument : JSValue SampleNumber :=
  .obj [("battery", .obj [("percent", .num .n50), ("power_plugged", .bool false)]),
        ("cpu", .obj [("usage", .num .n3), ("temperature", .num .n40)]),
        ("gpu", .obj [("load", .str "35%"), ("memory_used", .num .n1024)])]

/-! ## Basic facts about one completed fetch -/

theorem fetchSystemInfo_of_ok {s : State N} {o : FetchOutcome N} {d : JSValue N}
    (h : tryBlock o = .ok d) :
    fetchSystemInfo s o = { s with systemInfo := d, loading := false } := by
  simp [fetchSystemInfo, h]

theorem fetchSystemInfo_of_error {s : State N} {o : FetchOutcome N} {m : String}
    (h : tryBlock o = .error m) :
    fetchSystemInfo s o = { s with error := some m, loading := false } := by
  simp [fetchSystemInfo, h]

theorem fetchSystemInfo_loading (s : State N) (o : FetchOutcome N) :
    (fetchSystemInfo s o).loading = false := by
  unfold fetchSystemInfo
  split <;> rfl

theorem applyOutcomes_cons (s : State N) (o : FetchOutcome N) (os : List (FetchOutcome N)) :
    applyOutcomes s (o :: os) = applyOutcomes (fetchSystemInfo s o) os := rfl

theorem applyOutcomes_append_one (s : State N) (os : List (FetchOutcome N))
    (o : FetchOutcome N) :
    applyOutcomes s (os ++ [o]) = fetchSystemInfo (applyOutcomes s os) o := by
  simp [applyOutcomes, List.foldl_append]

theorem applyOutcomes_loading (s : State N) (os : List (FetchOutcome N)) (h : os ≠ []) :
    (applyOutcomes s os).loading = false := by
  induction os using List.reverseRecOn with
  | nil => exact absurd rfl h
  | append_singleton xs x _ =>
    rw [applyOutcomes_append_one]
    exact fetchSystemInfo_loading _ _

theorem errorTruthy_some {m : String} (h : m ≠ "") : errorTruthy (some m) = true := by
  simp [errorTruthy, h]

theorem renderState_error_of (R : NumberOps N) {s : State N} {m : String}
    (hl : s.loading = false) (he : s.error = some m) (hm : m ≠ "") :
    renderState R s = .error m := by
  simp [renderState, hl, he, errorTruthy_some hm]

theorem renderState_ready_of (R : NumberOps N) {s : State N}
    {props : List (String × JSValue N)}
    (hl : s.loading = false) (he : errorTruthy s.error = false)
    (hd : s.systemInfo = .obj props) : renderState R s = .ready (.obj props) := by
  simp [renderState, hl, he, hd, JSValue.truthy]

theorem render_error_of (R : NumberOps N) {s : State N} {m : String}
    (h : renderState R s = .error m) :
    render R s
      = .ok (.error "Error Fetching System Information" ("Details: " ++ m) errorHints) := by
  simp [render, h, RenderState.view]

/-! ## The mounted component and the state cells -/

theorem Component.completeAll_cons (R : NumberOps N) (c : Component N) (o : FetchOutcome N)
    (os : List (FetchOutcome N)) :
    c.completeAll R (o :: os) = (c.complete R o).completeAll R os := rfl

theorem Component.complete_of_unmounted (R : NumberOps N) {c : Component N}
    (h : c.mounted = false) (o : FetchOutcome N) : c.complete R o = c := by
  simp [Component.complete, h]

theorem Component.completeAll_of_unmounted (R : NumberOps N) {c : Component N}
    (h : c.mounted = false) (os : List (FetchOutcome N)) : c.completeAll R os = c := by
  induction os with
  | nil => rfl
  | cons o rest ih =>
    rw [Component.completeAll_cons, Component.complete_of_unmounted R h, ih]

theorem Component.complete_state_of_mounted (R : NumberOps N) {c : Component N}
    (h : c.mounted = true) (o : FetchOutcome N) :
    (c.complete R o).state = fetchSystemInfo c.state o := by
  simp [Component.complete, h]

/-- While the component stays mounted, its state cells are the setter calls of
all the completions applied in order. -/
theorem Component.completeAll_state_of_mounted (R : NumberOps N) (c : Component N)
    (os : List (FetchOutcome N)) (h : (c.completeAll R os).mounted = true) :
    (c.completeAll R os).state = applyOutcomes c.state os := by
  induction os generalizing c with
  | nil => rfl
  | cons o rest ih =>
    rw [Component.completeAll_cons] at h ⊢
    have hc : c.mounted = true := by
      by_contra hneg
      have hf : c.mounted = false := by simpa using hneg
      rw [Component.complete_of_unmounted R hf, Component.completeAll_of_unmounted R hf] at h
      rw [hf] at h
      cases h
    rw [ih _ h, Component.complete_state_of_mounted R hc, applyOutcomes_cons]

/-- Mounted or not, the state cells of the component are the setter calls of
an initial part of the completions: those it was mounted for. -/
theorem Component.completeAll_state_prefix (R : NumberOps N) (c : Component N)
    (os : List (FetchOutcome N)) :
    ∃ os' rest, os = os' ++ rest ∧ (c.completeAll R os).state = applyOutcomes c.state os' := by
  induction os generalizing c with
  | nil => exact ⟨[], [], rfl, rfl⟩
  | cons o tl ih =>
    by_cases hc : c.mounted = true
    · obtain ⟨os', rest, hsplit, hstate⟩ := ih (c.complete R o)
      refine ⟨o :: os', rest, by simp [hsplit], ?_⟩
      rw [Component.completeAll_cons, hstate, Component.complete_state_of_mounted R hc,
        applyOutcomes_cons]
    · have hf : c.mounted = false := by simpa using hc
      exact ⟨[], o :: tl, rfl, by rw [Component.completeAll_of_unmounted R hf]; rfl⟩

/-! ## Render state after completed fetches (C1, C3, C5, C9, C10) -/

/-- C1, failing input: the component receives a complete document, then a
rejected request, then a second complete document.  The screen shows the grid
of the first document, then the error panel, and after the third completion
still the error panel with the old message: the second document is stored in
`systemInfo`, its grid would render, but `error` was never reset and
`if (error)` comes first.  The claim has `Ready` of the second document
there. -/
theorem success_failure_success_shows_error :
    (Component.initial.completeAll sampleOps
        [.success busyTelemetry.toJSON]).screen sampleOps
      = some (.grid busyGrid) ∧
    (Component.initial.completeAll sampleOps
        [.success busyTelemetry.toJSON, .rejected "Failed to fetch"]).screen sampleOps
      = some (.error "Error Fetching System Information" "Details: Failed to fetch"
          errorHints) ∧
    (Component.initial.completeAll sampleOps
        [.success busyTelemetry.toJSON, .rejected "Failed to fetch",
         .success laterTelemetry.toJSON]).screen sampleOps
      = some (.error "Error Fetching System Information" "Details: Failed to fetch"
          errorHints) ∧
    (Component.initial.completeAll sampleOps
        [.success busyTelemetry.toJSON, .rejected "Failed to fetch",
         .success laterTelemetry.toJSON]).state.systemInfo = laterTelemetry.toJSON ∧
    render sampleOps { systemInfo := laterTelemetry.toJSON, loading := false, error := none }
      = .ok (.grid laterGrid) ∧
    (Component.initial.completeAll sampleOps
        [.success busyTelemetry.toJSON, .rejected "Failed to fetch",
         .success laterTelemetry.toJSON]).screen sampleOps
      ≠ some (.grid laterGrid) :=
  ⟨by decide, by decide, by decide, rfl, by decide, by decide⟩

/-- C3: whatever the prior state, a response whose `ok` flag is false and
whose body text is `b` ends the fetch in the render state
`Error("Network response was not ok: " ++ b)`, shown in the error panel. -/
theorem not_ok_response_renders_body (R : NumberOps N) (s : State N) (r : Response N)
    (h : r.ok = false) :
    renderState R (fetchSystemInfo s (.responded r))
      = .error ("Network response was not ok: " ++ r.text) ∧
    render R (fetchSystemInfo s (.responded r))
      = .ok (.error "Error Fetching System Information"
          ("Details: " ++ ("Network response was not ok: " ++ r.text)) errorHints) := by
  have ht : tryBlock (.responded r) = .error ("Network response was not ok: " ++ r.text) := by
    simp [tryBlock, h]
  have hne : "Network response was not ok: " ++ r.text ≠ "" := by
    intro hcon
    have := congrArg String.length hcon
    simp only [String.length_append] at this
    have hlen : "Network response was not ok: ".length = 29 := by decide
    rw [hlen] at this
    have h0 : "".length = 0 := rfl
    rw [h0] at this
    omega
  have hrs : renderState R (fetchSystemInfo s (.responded r))
      = .error ("Network response was not ok: " ++ r.text) := by
    rw [fetchSystemInfo_of_error ht]
    exact renderState_error_of R rfl rfl hne
  exact ⟨hrs, render_error_of R hrs⟩

/-- C3, witness: status 503 with body `server down`, arriving while the grid
of `busyTelemetry` is on screen. -/
theorem not_ok_response_renders_body_witness :
    Response.ok ({ status := 503, text := "server down", json := .error "" } :
      Response SampleNumber) = false ∧
    renderState sampleOps
      (fetchSystemInfo { systemInfo := busyTelemetry.toJSON, loading := false, error := none }
        (.responded { status := 503, text := "server down", json := .error "" }))
      = .error "Network response was not ok: server down" :=
  ⟨by decide,
   (not_ok_response_renders_body sampleOps
      { systemInfo := busyTelemetry.toJSON, loading := false, error := none }
      { status := 503, text := "server down", json := .error "" } (by decide)).1⟩

/-- C5: whatever the prior state, when a response with a success status has a
body that `response.json()` rejects with a non-empty message `m`, the fetch
leaves the component in the render state `Error(m)`, shown in the error panel;
the state is not `Ready` of any document and the held document is the one held
before. -/
theorem invalid_json_renders_error (R : NumberOps N) (s : State N) (r : Response N)
    (m : String) (hok : r.ok = true) (hjson : r.json = .error m) (hm : m ≠ "") :
    renderState R (fetchSystemInfo s (.responded r)) = .error m ∧
    render R (fetchSystemInfo s (.responded r))
      = .ok (.error "Error Fetching System Information" ("Details: " ++ m) errorHints) ∧
    (∀ d, renderState R (fetchSystemInfo s (.responded r)) ≠ .ready d) ∧
    (fetchSystemInfo s (.responded r)).systemInfo = s.systemInfo := by
  have ht : tryBlock (.responded r) = .error m := by
    simp [tryBlock, hok, hjson]
  have hrs : renderState R (fetchSystemInfo s (.responded r)) = .error m := by
    rw [fetchSystemInfo_of_error ht]
    exact renderState_error_of R rfl rfl hm
  refine ⟨hrs, render_error_of R hrs, ?_, ?_⟩
  · intro d hd
    rw [hrs] at hd
    cases hd
  · rw [fetchSystemInfo_of_error ht]

/-- C5, witness: an HTML page served with status 200 while the document of
`busyTelemetry` is held. -/
theorem invalid_json_renders_error_witness :
    renderState sampleOps
      (fetchSystemInfo { systemInfo := busyTelemetry.toJSON, loading := false, error := none }
        (.responded { status := 200, text := "<html>", json := .error "Unexpected token <" }))
      = .error "Unexpected token <" ∧
    (fetchSystemInfo { systemInfo := busyTelemetry.toJSON, loading := false, error := none }
        (.responded { status := 200, text := "<html>", json := .error "Unexpected token <" })
      ).systemInfo = busyTelemetry.toJSON :=
  have h := invalid_json_renders_error sampleOps
    { systemInfo := busyTelemetry.toJSON, loading := false, error := none }
    { status := 200, text := "<html>", json := .error "Unexpected token <" }
    "Unexpected token <" (by decide) rfl (by decide)
  ⟨h.1, h.2.2.2⟩

/-- The facts about a reachable state that decide its render branch: the held
error, if any, is non-empty, and once loading is over either an error or an
object document is held. -/
theorem fetchSystemInfo_preserves (s : State N) (o : FetchOutcome N)
    (herr : s.error = none ∨ ∃ m, m ≠ "" ∧ s.error = some m)
    (ho : (∃ props, tryBlock o = .ok (.obj props)) ∨ (∃ m, m ≠ "" ∧ tryBlock o = .error m)) :
    ((fetchSystemInfo s o).error = none ∨
      ∃ m, m ≠ "" ∧ (fetchSystemInfo s o).error = some m) ∧
    ((∃ m, m ≠ "" ∧ (fetchSystemInfo s o).error = some m) ∨
      ((fetchSystemInfo s o).error = none ∧
        ∃ props, (fetchSystemInfo s o).systemInfo = .obj props)) := by
  rcases ho with ⟨props, hp⟩ | ⟨m, hm, hp⟩
  · rw [fetchSystemInfo_of_ok hp]
    refine ⟨herr, ?_⟩
    rcases herr with hn | hs
    · exact Or.inr ⟨hn, props, rfl⟩
    · exact Or.inl hs
  · rw [fetchSystemInfo_of_error hp]
    exact ⟨Or.inr ⟨m, hm, rfl⟩, Or.inl ⟨m, hm, rfl⟩⟩

theorem applyOutcomes_reachable (os : List (FetchOutcome N))
    (h : ∀ o ∈ os, (∃ props, tryBlock o = .ok (.obj props)) ∨
      (∃ m, m ≠ "" ∧ tryBlock o = .error m)) :
    ((applyOutcomes State.initial os).error = none ∨
      ∃ m, m ≠ "" ∧ (applyOutcomes State.initial os).error = some m) ∧
    (os = [] ∨ (∃ m, m ≠ "" ∧ (applyOutcomes State.initial os).error = some m) ∨
      ((applyOutcomes State.initial os).error = none ∧
        ∃ props, (applyOutcomes State.initial os).systemInfo = .obj props)) := by
  induction os using List.reverseRecOn with
  | nil => exact ⟨Or.inl rfl, Or.inl rfl⟩
  | append_singleton xs x ih =>
    have hx := h x (by simp)
    have ih' := ih (fun o ho => h o (by simp [ho]))
    rw [applyOutcomes_append_one]
    have := fetchSystemInfo_preserves (applyOutcomes State.initial xs) x ih'.1 hx
    exact ⟨this.1, Or.inr this.2⟩

theorem applyOutcomes_branch (R : NumberOps N) (os : List (FetchOutcome N))
    (h : ∀ o ∈ os, (∃ props, tryBlock o = .ok (.obj props)) ∨
      (∃ m, m ≠ "" ∧ tryBlock o = .error m)) :
    (os = [] ∧ renderState R (applyOutcomes State.initial os) = .loading) ∨
    (∃ m, (applyOutcomes State.initial os).error = some m ∧
      renderState R (applyOutcomes State.initial os) = .error m) ∨
    (∃ props, (applyOutcomes State.initial os).systemInfo = .obj props ∧
      renderState R (applyOutcomes State.initial os) = .ready (.obj props)) := by
  rcases (applyOutcomes_reachable os h).2 with hnil | ⟨m, hm, he⟩ | ⟨he, props, hp⟩
  · subst hnil
    exact Or.inl ⟨rfl, rfl⟩
  · have hne : os ≠ [] := by
      intro hnil
      subst hnil
      cases he
    exact Or.inr (Or.inl ⟨m, he,
      renderState_error_of R (applyOutcomes_loading _ os hne) he hm⟩)
  · by_cases hne : os = []
    · subst hne
      exact Or.inl ⟨rfl, rfl⟩
    · refine Or.inr (Or.inr ⟨props, hp, ?_⟩)
      exact renderState_ready_of R (applyOutcomes_loading _ os hne) (by rw [he]; rfl) hp

/-- C9, as amended: in every state reached from the initial state by completed
fetches, each a success carrying a JSON object or a failure carrying a
non-empty message, the component body selects exactly one of the three
branches loading indicator, error panel (with the held message) or metric grid
(for the held document), and never the "No system information available"
fallback.  This holds for the state cells with every completion applied, and
for the state cells of the component as it lives the completions. -/
theorem reachable_render_state (R : NumberOps N) (os : List (FetchOutcome N))
    (h : ∀ o ∈ os, (∃ props, tryBlock o = .ok (.obj props)) ∨
      (∃ m, m ≠ "" ∧ tryBlock o = .error m)) :
    (renderState R (applyOutcomes State.initial os) ≠ .fallback ∧
     ((os = [] ∧ renderState R (applyOutcomes State.initial os) = .loading) ∨
      (∃ m, (applyOutcomes State.initial os).error = some m ∧
         renderState R (applyOutcomes State.initial os) = .error m) ∨
      (∃ props, (applyOutcomes State.initial os).systemInfo = .obj props ∧
         renderState R (applyOutcomes State.initial os) = .ready (.obj props)))) ∧
    (renderState R (Component.initial.completeAll R os).state ≠ .fallback ∧
     (renderState R (Component.initial.completeAll R os).state = .loading ∨
      (∃ m, (Component.initial.completeAll R os).state.error = some m ∧
         renderState R (Component.initial.completeAll R os).state = .error m) ∨
      (∃ props, (Component.initial.completeAll R os).state.systemInfo = .obj props ∧
         renderState R (Component.initial.completeAll R os).state = .ready (.obj props)))) := by
  have key := applyOutcomes_branch R os h
  obtain ⟨os', rest, hsplit, hstate⟩ := Component.completeAll_state_prefix R Component.initial os
  have h' : ∀ o ∈ os', (∃ props, tryBlock o = .ok (.obj props)) ∨
      (∃ m, m ≠ "" ∧ tryBlock o = .error m) :=
    fun o ho => h o (by rw [hsplit]; exact List.mem_append_left _ ho)
  have key' := applyOutcomes_branch R os' h'
  have hinit : (Component.initial : Component N).state = State.initial := rfl
  rw [hinit] at hstate
  rw [hstate]
  refine ⟨⟨?_, key⟩, ⟨?_, ?_⟩⟩
  · rcases key with ⟨_, hk⟩ | ⟨m, _, hk⟩ | ⟨props, _, hk⟩ <;> rw [hk] <;> simp
  · rcases key' with ⟨_, hk⟩ | ⟨m, _, hk⟩ | ⟨props, _, hk⟩ <;> rw [hk] <;> simp
  · rcases key' with ⟨_, hk⟩ | hk | hk
    · exact Or.inl hk
    · exact Or.inr (Or.inl hk)
    · exact Or.inr (Or.inr hk)

/-- C9, witness: a success followed by a rejected request. -/
theorem reachable_render_state_witness :
    renderState sampleOps
      (applyOutcomes State.initial [.success busyTelemetry.toJSON, .rejected "Failed to fetch"])
      ≠ .fallback :=
  (reachable_render_state sampleOps
    [.success busyTelemetry.toJSON, .rejected "Failed to fetch"] (by
    intro o ho
    simp only [List.mem_cons, List.mem_singleton, List.not_mem_nil, or_false] at ho
    rcases ho with rfl | rfl
    · exact Or.inl ⟨_, rfl⟩
    · exact Or.inr ⟨"Failed to fetch", by decide, rfl⟩)).1.1

/-- C9, counterexample: one failed fetch whose error has the empty message
leaves the component on the "No system information available" fallback, which
is none of the three render states. -/
theorem empty_message_renders_fallback :
    renderState sampleOps (applyOutcomes State.initial [.rejected ""]) = .fallback ∧
    render sampleOps (applyOutcomes State.initial [.rejected ""])
      = .ok (.fallback "No system information available. Please check your backend.") ∧
    (Component.initial.completeAll sampleOps [.rejected ""]).screen sampleOps
      = some (.fallback "No system information available. Please check your backend.") :=
  ⟨rfl, by decide, by decide⟩

theorem applyOutcomes_error_of_no_failure (s : State N) (os : List (FetchOutcome N))
    (h : lastFailure os = none) : (applyOutcomes s os).error = s.error := by
  induction os generalizing s with
  | nil => rfl
  | cons o rest ih =>
    unfold lastFailure at h
    cases hr : lastFailure rest with
    | some m => simp [hr] at h
    | none =>
      simp only [hr] at h
      cases ht : tryBlock o with
      | error m => simp [ht] at h
      | ok d =>
        rw [applyOutcomes_cons, ih _ hr, fetchSystemInfo_of_ok ht]

theorem applyOutcomes_error_of_last_failure (s : State N) (os : List (FetchOutcome N))
    (m : String) (h : lastFailure os = some m) : (applyOutcomes s os).error = some m := by
  induction os generalizing s with
  | nil => simp [lastFailure] at h
  | cons o rest ih =>
    unfold lastFailure at h
    cases hr : lastFailure rest with
    | some m' =>
      simp only [hr, Option.some.injEq] at h
      subst h
      rw [applyOutcomes_cons]
      exact ih _ hr
    | none =>
      simp only [hr] at h
      cases ht : tryBlock o with
      | ok d => simp [ht] at h
      | error m' =>
        simp only [ht, Option.some.injEq] at h
        subst h
        rw [applyOutcomes_cons, applyOutcomes_error_of_no_failure _ _ hr,
          fetchSystemInfo_of_error ht]

/-- C10: when the component has lived a sequence of completed fetches that
contains a failure and is still mounted (no render has thrown), from any prior
state, the held `error` is the message of the most recent failure, however
many successes follow it; when that message is non-empty the render state is
`Error` with that message and the screen shows the error panel with it. -/
theorem error_is_sticky (R : NumberOps N) (c : Component N) (os : List (FetchOutcome N))
    (m : String) (h : lastFailure os = some m)
    (hmounted : (c.completeAll R os).mounted = true) :
    (c.completeAll R os).state.error = some m ∧
    (m ≠ "" → renderState R (c.completeAll R os).state = .error m ∧
      (c.completeAll R os).screen R
        = some (.error "Error Fetching System Information" ("Details: " ++ m) errorHints)) := by
  have hstate := Component.completeAll_state_of_mounted R c os hmounted
  have he : (c.completeAll R os).state.error = some m := by
    rw [hstate]
    exact applyOutcomes_error_of_last_failure c.state os m h
  refine ⟨he, fun hm => ?_⟩
  have hne : os ≠ [] := by
    intro hnil
    subst hnil
    simp [lastFailure] at h
  have hl : (c.completeAll R os).state.loading = false := by
    rw [hstate]
    exact applyOutcomes_loading c.state os hne
  have hrs := renderState_error_of R hl he hm
  refine ⟨hrs, ?_⟩
  simp [Component.screen, hmounted, render_error_of R hrs]

/-- C10, witness: one failure followed by two successes with complete
documents. -/
theorem error_is_sticky_witness :
    lastFailure ([.rejected "Failed to fetch", .success busyTelemetry.toJSON,
        .success laterTelemetry.toJSON] : List (FetchOutcome SampleNumber))
      = some "Failed to fetch" ∧
    (Component.initial.completeAll sampleOps [.rejected "Failed to fetch",
        .success busyTelemetry.toJSON, .success laterTelemetry.toJSON]).mounted = true ∧
    (Component.initial.completeAll sampleOps [.rejected "Failed to fetch",
        .success busyTelemetry.toJSON, .success laterTelemetry.toJSON]).state.error
      = some "Failed to fetch" ∧
    (Component.initial.completeAll sampleOps [.rejected "Failed to fetch",
        .success busyTelemetry.toJSON, .success laterTelemetry.toJSON]).screen sampleOps
      = some (.error "Error Fetching System Information" "Details: Failed to fetch"
          errorHints) :=
  have h := error_is_sticky sampleOps Component.initial
    [.rejected "Failed to fetch", .success busyTelemetry.toJSON,
      .success laterTelemetry.toJSON] "Failed to fetch" rfl (by decide)
  ⟨rfl, by decide, h.1, (h.2 (by decide)).2⟩

/-! ## The effect after its cleanup (C7) -/

theorem Poller.run_cons (R : NumberOps N) (p : Poller N) (e : Event N) (es : List (Event N)) :
    Poller.run R p (e :: es) = Poller.run R (p.step R e) es := rfl

/-- On an unmounted component with a cleared interval no event issues a call
or changes the component. -/
theorem Poller.step_unmounted (R : NumberOps N) (p : Poller N) (e : Event N)
    (hm : p.comp.mounted = false) (ha : p.intervalArmed = false) :
    (p.step R e).issued = p.issued ∧ (p.step R e).comp = p.comp ∧
    (p.step R e).intervalArmed = false := by
  cases e with
  | start => simp [Poller.step, hm, ha]
  | tick => simp [Poller.step, ha]
  | stop =>
    refine ⟨rfl, ?_, rfl⟩
    show ({ p.comp with mounted := false } : Component N) = p.comp
    cases hc : p.comp with
    | mk state mounted =>
      rw [hc] at hm
      simp only at hm
      simp [hm]
  | complete o =>
    by_cases h0 : p.inFlight = 0
    · simp [Poller.step, h0, ha]
    · simp [Poller.step, h0, ha, Component.complete_of_unmounted R hm]

theorem Poller.run_unmounted (R : NumberOps N) (p : Poller N) (es : List (Event N))
    (hm : p.comp.mounted = false) (ha : p.intervalArmed = false) :
    (Poller.run R p es).issued = p.issued ∧ (Poller.run R p es).comp = p.comp := by
  induction es generalizing p with
  | nil => exact ⟨rfl, rfl⟩
  | cons e rest ih =>
    obtain ⟨hi, hc, ha'⟩ := Poller.step_unmounted R p e hm ha
    rw [Poller.run_cons]
    have := ih (p.step R e) (by rw [hc]; exact hm) ha'
    exact ⟨this.1.trans hi, this.2.trans hc⟩

/-- C7: once the cleanup has run, whatever happened before it (in particular
when no fetch has completed yet), then in every continuation of starts, ticks,
completions and stops no call of `fetchSystemInfo` is issued and the held
state (`systemInfo`, `loading`, `error`) does not change: the interval is
cleared, the effect body does not run again, and the setter calls of a fetch
that completes afterwards are calls on an unmounted component. -/
theorem no_transition_after_stop (R : NumberOps N) (p : Poller N) (es : List (Event N)) :
    (Poller.run R (p.step R .stop) es).issued = p.issued ∧
    (Poller.run R (p.step R .stop) es).comp.state = p.comp.state ∧
    (Poller.run R (p.step R .stop) es).comp.screen R = none := by
  obtain ⟨hi, hc⟩ := Poller.run_unmounted R (p.step R .stop) es rfl rfl
  refine ⟨hi, ?_, ?_⟩
  · rw [hc]
    rfl
  · rw [hc]
    rfl

/-- A stop before the first completion, evaluated: the effect starts, the
cleanup runs before the initial fetch has completed, the interval period elapses and the
fetch then completes with a complete document.  One call was issued in all,
the state cells are the initial ones and nothing is on screen. -/
theorem stop_before_first_completion :
    (Poller.run sampleOps Poller.initial
        [.start, .stop, .tick, .complete (.success busyTelemetry.toJSON)]).issued = 1 ∧
    (Poller.run sampleOps Poller.initial
        [.start, .stop, .tick, .complete (.success busyTelemetry.toJSON)]).comp.state.loading
      = true ∧
    (Poller.run sampleOps Poller.initial
        [.start, .stop, .tick, .complete (.success busyTelemetry.toJSON)]).comp.screen sampleOps
      = none ∧
    (Poller.run sampleOps Poller.initial
        [.start, .tick, .complete (.success busyTelemetry.toJSON)]).comp.screen sampleOps
      = some (.grid busyGrid) :=
  ⟨rfl, rfl, rfl, by decide⟩

/-! ## The metric grid: what a successful render consists of -/

theorem metricGrid_ok_lines {R : NumberOps N} {D : JSValue N} {e : Grid (Line N)}
    (h : metricGrid R D = .ok e) :
    currentTimeLine R D = .ok e.currentTime ∧ pythonVersionLine R D = .ok e.pythonVersion ∧
    batteryLine R D = .ok e.battery ∧ cpuUsageLine R D = .ok e.cpuUsage ∧
    cpuTemperatureLine R D = .ok e.cpuTemperature ∧ ramUsedLine R D = .ok e.ramUsed ∧
    ramTotalLine R D = .ok e.ramTotal ∧ ramUsageLine R D = .ok e.ramUsage ∧
    gpuLines R D = .ok e.gpu ∧ locationLine R D = .ok e.location := by
  unfold metricGrid at h
  simp only [bind, Except.bind, pure, Except.pure] at h
  cases h1 : currentTimeLine R D <;> simp only [h1] at h <;> try contradiction
  cases h2 : pythonVersionLine R D <;> simp only [h2] at h <;> try contradiction
  cases h3 : batteryLine R D <;> simp only [h3] at h <;> try contradiction
  cases h4 : cpuUsageLine R D <;> simp only [h4] at h <;> try contradiction
  cases h5 : cpuTemperatureLine R D <;> simp only [h5] at h <;> try contradiction
  cases h6 : ramUsedLine R D <;> simp only [h6] at h <;> try contradiction
  cases h7 : ramTotalLine R D <;> simp only [h7] at h <;> try contradiction
  cases h8 : ramUsageLine R D <;> simp only [h8] at h <;> try contradiction
  cases h9 : gpuLines R D <;> simp only [h9] at h <;> try contradiction
  cases h10 : locationLine R D <;> simp only [h10] at h <;> try contradiction
  simp only [Except.ok.injEq] at h
  subst h
  simp

theorem Grid.text_ok_lines {R : NumberOps N} {e : Grid (Line N)} {g : Grid String}
    (h : Grid.text R e = .ok g) :
    childrenText R e.currentTime = .ok g.currentTime ∧
    childrenText R e.pythonVersion = .ok g.pythonVersion ∧
    childrenText R e.battery = .ok g.battery ∧ childrenText R e.cpuUsage = .ok g.cpuUsage ∧
    childrenText R e.cpuTemperature = .ok g.cpuTemperature ∧
    childrenText R e.ramUsed = .ok g.ramUsed ∧ childrenText R e.ramTotal = .ok g.ramTotal ∧
    childrenText R e.ramUsage = .ok g.ramUsage ∧ linesText R e.gpu = .ok g.gpu ∧
    childrenText R e.location = .ok g.location := by
  unfold Grid.text at h
  simp only [bind, Except.bind, pure, Except.pure] at h
  cases h1 : childrenText R e.currentTime <;> simp only [h1] at h <;> try contradiction
  cases h2 : childrenText R e.pythonVersion <;> simp only [h2] at h <;> try contradiction
  cases h3 : childrenText R e.battery <;> simp only [h3] at h <;> try contradiction
  cases h4 : childrenText R e.cpuUsage <;> simp only [h4] at h <;> try contradiction
  cases h5 : childrenText R e.cpuTemperature <;> simp only [h5] at h <;> try contradiction
  cases h6 : childrenText R e.ramUsed <;> simp only [h6] at h <;> try contradiction
  cases h7 : childrenText R e.ramTotal <;> simp only [h7] at h <;> try contradiction
  cases h8 : childrenText R e.ramUsage <;> simp only [h8] at h <;> try contradiction
  cases h9 : linesText R e.gpu <;> simp only [h9] at h <;> try contradiction
  cases h10 : childrenText R e.location <;> simp only [h10] at h <;> try contradiction
  simp only [Except.ok.injEq] at h
  subst h
  simp

theorem renderGrid_ok {R : NumberOps N} {D : JSValue N} {g : Grid String}
    (h : renderGrid R D = .ok g) :
    ∃ e, metricGrid R D = .ok e ∧ Grid.text R e = .ok g := by
  unfold renderGrid at h
  simp only [bind, Except.bind] at h
  cases h1 : metricGrid R D <;> simp only [h1] at h <;> try contradiction
  exact ⟨_, rfl, h⟩

theorem renderGrid_gpu {R : NumberOps N} {D : JSValue N} {g : Grid String}
    (h : renderGrid R D = .ok g) :
    gpuPanel R D = .ok g.gpu := by
  obtain ⟨e, he, ht⟩ := renderGrid_ok h
  have h9 := (metricGrid_ok_lines he).2.2.2.2.2.2.2.2.1
  have t9 := (Grid.text_ok_lines ht).2.2.2.2.2.2.2.2.1
  simp [gpuPanel, h9, t9, bind, Except.bind]

theorem field_defined {D : JSValue N} {outer inner : String} {v : JSValue N}
    (h : field D outer inner = v) (hv : v ≠ .undefined) :
    ∃ props iprops, D = .obj props ∧ lookup outer props = .obj iprops ∧
      lookup inner iprops = v := by
  unfold field at h
  cases D with
  | obj props =>
    simp only [optChain] at h
    cases hl : lookup outer props with
    | obj iprops =>
      rw [hl] at h
      exact ⟨props, iprops, rfl, hl, h⟩
    | _ =>
      rw [hl] at h
      exact absurd h.symm hv
  | _ => exact absurd h.symm hv

theorem truthy_num (R : NumberOps N) {x : N} (hx : R.isFalsy x = false) :
    truthy R (.num x) = true := by
  simp [truthy, hx]

/-! ## The metric grid on incomplete and complete documents (C2, C4) -/

/-- C2, failing input: with the document of a desktop machine, whose `battery`
is `null`, held in the Ready state, rendering the grid throws the TypeError of
reading `percent` of `null` instead of showing a placeholder; with the empty
document, whose `battery` is absent, it throws the one of reading `percent` of
`undefined`. -/
theorem null_battery_throws :
    renderState sampleOps { systemInfo := desktopDocument, loading := false, error := none }
      = .ready desktopDocument ∧
    render sampleOps { systemInfo := desktopDocument, loading := false, error := none }
      = .error (.cannotReadProperty true "percent") ∧
    render sampleOps { systemInfo := .obj [], loading := false, error := none }
      = .error (.cannotReadProperty false "percent") :=
  ⟨rfl, by decide, by decide⟩

/-- What the grid does by design on a complete document: when every field of
the telemetry shape is present and well-typed, every string is non-empty and
the numbers behind a truthiness guard are truthy, every slot shows the value
of its field, formatted by the engine. -/
theorem complete_document_shows_values (R : NumberOps N) (D : JSValue N) (t : Telemetry N)
    (h : Conforms D t)
    (hs : t.current_time ≠ "" ∧ t.python_version ≠ "" ∧ t.gpu_name ≠ "" ∧
      t.location_city ≠ "" ∧ t.location_region ≠ "" ∧ t.location_country ≠ "")
    (hn : R.isFalsy t.cpu_usage = false ∧ R.isFalsy t.ram_used = false ∧
      R.isFalsy t.ram_total = false ∧ R.isFalsy t.ram_percent = false ∧
      R.isFalsy t.gpu_load = false ∧ R.isFalsy t.gpu_memory_used = false ∧
      R.isFalsy t.gpu_memory_total = false) :
    renderGrid R D = .ok
      { currentTime := t.current_time,
        pythonVersion := t.python_version,
        battery := R.numToString t.battery_percent ++ "%" ++ " (" ++
          (if t.battery_power_plugged then "Charging" else "Not Charging") ++ ")",
        cpuUsage := "Usage: " ++ R.numToString t.cpu_usage ++ "%",
        cpuTemperature := "Temperature: " ++ R.numToString t.cpu_temperature ++ "Â°C",
        ramUsed := "Used: " ++ R.toFixed2 t.ram_used ++ " GB",
        ramTotal := "Total: " ++ R.toFixed2 t.ram_total ++ " GB",
        ramUsage := "Usage: " ++ R.numToString t.ram_percent ++ "%",
        gpu := ["Name: " ++ t.gpu_name,
                "Load: " ++ R.toFixed2 t.gpu_load ++ "%",
                "Memory: " ++ R.numToString t.gpu_memory_used ++ " / " ++
                  R.numToString t.gpu_memory_total ++ " MB"],
        location := t.location_city ++ "," ++ t.location_region ++ "," ++
          t.location_country } := by
  obtain ⟨h1, h2, h3, h4, h5, h6, h7, h8, h9, h10, h11, h12, h13, h14, h15, h16⟩ := h
  obtain ⟨s1, s2, s3, s4, s5, s6⟩ := hs
  obtain ⟨n1, n2, n3, n4, n5, n6, n7⟩ := hn
  obtain ⟨props, bp, rfl, hb, hb1⟩ := field_defined h3 (by simp)
  obtain ⟨_, cp, hD, hc, hc1⟩ := field_defined h5 (by simp)
  cases hD
  obtain ⟨_, rp, hD, hr, hr1⟩ := field_defined h7 (by simp)
  cases hD
  obtain ⟨_, gp, hD, hg, hg1⟩ := field_defined h10 (by simp)
  cases hD
  obtain ⟨_, lp, hD, hl, hl1⟩ := field_defined h14 (by simp)
  cases hD
  simp only [field, optChain, hb, hc, hr, hg, hl] at h1 h2 h3 h4 h5 h6 h7 h8
  simp only [field, optChain, hb, hc, hr, hg, hl] at h9 h10 h11 h12 h13 h14 h15 h16
  simp [renderGrid, metricGrid, currentTimeLine, pythonVersionLine, batteryLine, batteryPercent,
    batteryPlugged, cpuUsageLine, cpuTemperatureLine, ramUsedLine, ramTotalLine, ramUsageLine,
    gpuLines, locationLine, getProp, optChain, fixedOrNA, callToFixed2, JSValue.or,
    strictNeNull, toStr, Grid.text, linesText, childrenText, childText,
    bind, Except.bind, pure, Except.pure,
    hb, hc, hr, hg, hl, h1, h2, h3, h4, h5, h6, h7, h8, h9, h10, h11, h12, h13, h14, h15, h16,
    n1, n2, n3, n4, n5, n6, n7, s1, s2, s3, s4, s5, s6, truthy, String.append_assoc]
  have hlit : ("%" ++ " (" : String) = "% (" := by decide
  rw [← String.append_assoc "%" " (", hlit]

/-- C4, failing input: the complete, well-typed document of a machine whose
GPU is idle, `gpu.load` being the number 0.  The grid renders, and its Load
paragraph shows the placeholder `N/A` where the claim has no placeholder; the
same document with `gpu.load` 35 shows `Load: 35.00%`. -/
theorem idle_gpu_shows_placeholder :
    Conforms idleGpuTelemetry.toJSON idleGpuTelemetry ∧
    renderGrid sampleOps idleGpuTelemetry.toJSON = .ok
      { busyGrid with gpu := ["Name: RTX 3060", "Load: N/A%", "Memory: 1024 / 8192 MB"] } ∧
    renderGrid sampleOps busyTelemetry.toJSON = .ok busyGrid :=
  ⟨⟨rfl, rfl, rfl, rfl, rfl, rfl, rfl, rfl, rfl, rfl, rfl, rfl, rfl, rfl, rfl, rfl⟩,
   by decide, by decide⟩

/-! ## Paragraphs of the GPU panel and of the numeric slots -/

theorem childrenText_three {R : NumberOps N} {a c : String} {v : JSValue N} {s : String}
    (h : childrenText R [.str a, v, .str c] = .ok s) :
    ∃ t, childText R v = .ok t ∧ s = a ++ t ++ c := by
  simp only [childrenText, childText] at h
  cases hv : childText R v with
  | error e => simp [hv] at h
  | ok t =>
    simp only [hv, Except.ok.injEq] at h
    exact ⟨t, rfl, by rw [← h]; simp [String.append_assoc]⟩

theorem childrenText_memory {R : NumberOps N} {u t : JSValue N} {s : String}
    (h : childrenText R [.str "Memory: ", u, .str " / ", t, .str " MB"] = .ok s) :
    ∃ su st, childText R u = .ok su ∧ childText R t = .ok st ∧
      s = "Memory: " ++ su ++ " / " ++ st ++ " MB" := by
  simp only [childrenText, childText] at h
  cases hu : childText R u with
  | error e => simp [hu] at h
  | ok su =>
    cases ht : childText R t with
    | error e => simp [hu, ht] at h
    | ok st =>
      simp only [hu, ht, Except.ok.injEq] at h
      exact ⟨su, st, rfl, rfl, by rw [← h]; simp [String.append_assoc]⟩

theorem linesText_three {R : NumberOps N} {a b c : Line N} {ls : List String}
    (h : linesText R [a, b, c] = .ok ls) :
    ∃ sa sb sc, childrenText R a = .ok sa ∧ childrenText R b = .ok sb ∧
      childrenText R c = .ok sc ∧ ls = [sa, sb, sc] := by
  simp only [linesText] at h
  cases ha : childrenText R a with
  | error e => simp [ha] at h
  | ok sa =>
    cases hb : childrenText R b with
    | error e => simp [ha, hb] at h
    | ok sb =>
      cases hc : childrenText R c with
      | error e => simp [ha, hb, hc] at h
      | ok sc =>
        simp only [ha, hb, hc, Except.ok.injEq] at h
        exact ⟨sa, sb, sc, rfl, rfl, rfl, h.symm⟩

theorem gpuLines_of_object {R : NumberOps N} {props ip : List (String × JSValue N)}
    {ls : List (Line N)}
    (ho : lookup "gpu" props = .obj ip) (h : gpuLines R (.obj props) = .ok ls) :
    ∃ loadText, fixedOrNA R (lookup "load" ip) = .ok loadText ∧
      ls = [[.str "Name: ", JSValue.or R (lookup "name" ip) (.str "N/A")],
            [.str "Load: ", loadText, .str "%"],
            [.str "Memory: ", JSValue.or R (lookup "memory_used" ip) (.str "N/A"), .str " / ",
              JSValue.or R (lookup "memory_total" ip) (.str "N/A"), .str " MB"]] := by
  have htr : (JSValue.obj ip).truthy R = true := rfl
  simp only [gpuLines, getProp, ho, htr, bind, Except.bind, pure, Except.pure, if_true] at h
  cases hl : fixedOrNA R (lookup "load" ip) with
  | error e => simp [hl] at h
  | ok loadText =>
    simp only [hl, Except.ok.injEq] at h
    exact ⟨loadText, rfl, h.symm⟩

theorem gpuPanel_of_absent (R : NumberOps N) {props : List (String × JSValue N)}
    (hgpu : lookup "gpu" props = .undefined) :
    gpuPanel R (.obj props) = .ok ["No GPU detected"] := by
  simp [gpuPanel, gpuLines, getProp, hgpu, truthy, linesText, childrenText, childText,
    bind, Except.bind, pure, Except.pure]

theorem load_line_ne (a : String) : "Load: " ++ a ++ "%" ≠ "No GPU detected" := by
  intro h
  have := congrArg String.data h
  simp [String.data_append] at this

theorem memory_line_ne (a : String) : "Memory: " ++ a ++ " MB" ≠ "No GPU detected" := by
  intro h
  have := congrArg String.data h
  simp [String.data_append] at this

theorem gpuPanel_of_unnamed (R : NumberOps N) {props gprops : List (String × JSValue N)}
    {ls : List String}
    (hgpu : lookup "gpu" props = .obj gprops) (hname : lookup "name" gprops = .undefined)
    (h : gpuPanel R (.obj props) = .ok ls) :
    ∃ load mem, ls = ["Name: N/A", "Load: " ++ load ++ "%", "Memory: " ++ mem ++ " MB"] := by
  unfold gpuPanel at h
  simp only [bind, Except.bind] at h
  cases hl : gpuLines R (.obj props) with
  | error e => simp [hl] at h
  | ok lines =>
    simp only [hl] at h
    obtain ⟨loadText, -, hlines⟩ := gpuLines_of_object hgpu hl
    rw [hlines, hname] at h
    obtain ⟨sa, sb, sc, ha, hb, hc, hls⟩ := linesText_three h
    have hn : JSValue.or R (.undefined : JSValue N) (.str "N/A") = .str "N/A" := rfl
    rw [hn] at ha
    simp only [childrenText, childText, Except.ok.injEq] at ha
    obtain ⟨t, -, hsb⟩ := childrenText_three hb
    obtain ⟨su, st, -, -, hsc⟩ := childrenText_memory hc
    refine ⟨t, su ++ " / " ++ st, ?_⟩
    rw [hls, ← ha, hsb, hsc]
    simp [String.append_assoc]

/-! ## The GPU panel (C6) -/

/-- C6, as amended: for a document without `gpu` the GPU panel is the single
paragraph `No GPU detected`.  For a document whose `gpu` is an object without
`name`, whenever the grid renders, the GPU panel is the three paragraphs Name,
Load and Memory with the name shown as `N/A`, and `No GPU detected` is not
among them.  Whenever the grids of two such documents render, their GPU panels
differ. -/
theorem gpu_absent_vs_name_absent (R : NumberOps N)
    (props props' gprops : List (String × JSValue N))
    (hgpu : lookup "gpu" props = .undefined)
    (hgpu' : lookup "gpu" props' = .obj gprops)
    (hname : lookup "name" gprops = .undefined) :
    gpuPanel R (.obj props) = .ok ["No GPU detected"] ∧
    (∀ g, renderGrid R (.obj props) = .ok g → g.gpu = ["No GPU detected"]) ∧
    (∀ g', renderGrid R (.obj props') = .ok g' →
      (∃ load mem,
        g'.gpu = ["Name: N/A", "Load: " ++ load ++ "%", "Memory: " ++ mem ++ " MB"]) ∧
      "No GPU detected" ∉ g'.gpu) ∧
    (∀ g g', renderGrid R (.obj props) = .ok g → renderGrid R (.obj props') = .ok g' →
      g.gpu ≠ g'.gpu) := by
  have hA := gpuPanel_of_absent R hgpu
  have hG : ∀ g, renderGrid R (.obj props) = .ok g → g.gpu = ["No GPU detected"] := by
    intro g hg
    have := renderGrid_gpu hg
    rw [hA] at this
    exact (Except.ok.inj this).symm
  have hG' : ∀ g', renderGrid R (.obj props') = .ok g' →
      (∃ load mem,
        g'.gpu = ["Name: N/A", "Load: " ++ load ++ "%", "Memory: " ++ mem ++ " MB"]) ∧
      "No GPU detected" ∉ g'.gpu := by
    intro g' hg'
    obtain ⟨load, mem, hls⟩ := gpuPanel_of_unnamed R hgpu' hname (renderGrid_gpu hg')
    refine ⟨⟨load, mem, hls⟩, ?_⟩
    rw [hls]
    intro hmem
    simp only [List.mem_cons, List.mem_singleton, List.not_mem_nil, or_false] at hmem
    rcases hmem with h1 | h1 | h1
    · exact absurd h1 (by decide)
    · exact load_line_ne load h1.symm
    · exact memory_line_ne mem h1.symm
  refine ⟨hA, hG, hG', ?_⟩
  intro g g' hg hg' heq
  have hnot := (hG' g' hg').2
  rw [← heq, hG g hg] at hnot
  exact hnot (by simp)

/-- C6, witness: `noGpuDocument` against `unnamedGpuDocument`, whose grids
render. -/
theorem gpu_absent_vs_name_absent_witness :
    renderGrid sampleOps noGpuDocument = .ok noGpuGrid ∧
    renderGrid sampleOps unnamedGpuDocument = .ok unnamedGpuGrid ∧
    noGpuGrid.gpu = ["No GPU detected"] ∧
    "No GPU detected" ∉ unnamedGpuGrid.gpu ∧
    noGpuGrid.gpu ≠ unnamedGpuGrid.gpu :=
  have h := gpu_absent_vs_name_absent sampleOps
    [("battery", .obj [("percent", .num .n50), ("power_plugged", .bool false)]),
     ("cpu", .obj [("usage", .num .n3), ("temperature", .num .n40)])]
    [("battery", .obj [("percent", .num .n50), ("power_plugged", .bool false)]),
     ("cpu", .obj [("usage", .num .n3), ("temperature", .num .n40)]),
     ("gpu", .obj [("load", .num .n35), ("memory_used", .num .n1024)])]
    [("load", .num .n35), ("memory_used", .num .n1024)]
    rfl rfl rfl
  ⟨by decide, by decide, h.2.1 noGpuGrid (by decide),
   (h.2.2.1 unnamedGpuGrid (by decide)).2,
   h.2.2.2 noGpuGrid unnamedGpuGrid (by decide) (by decide)⟩

/-- C6, counterexample: the `gpu` object of `stringLoadDocument` has no `name`
and gives its load as the string `35%`.  In the Ready state the render throws
"toFixed is not a function" out of the GPU panel, so no Name, Load or Memory
paragraph is shown. -/
theorem string_gpu_load_throws :
    field stringLoadDocument "gpu" "name" = .undefined ∧
    field stringLoadDocument "gpu" "load" = .str "35%" ∧
    renderState sampleOps { systemInfo := stringLoadDocument, loading := false, error := none }
      = .ready stringLoadDocument ∧
    gpuPanel sampleOps stringLoadDocument = .error (.notAFunction "toFixed") ∧
    render sampleOps { systemInfo := stringLoadDocument, loading := false, error := none }
      = .error (.notAFunction "toFixed") :=
  ⟨rfl, rfl, rfl, by decide, by decide⟩

/-! ## Number formatting in the grid (C8) -/

/-- C8, as amended: whenever the grid of a document renders, `ram.used`,
`ram.total` and `gpu.load`, when they are truthy numbers (not zero), are shown
as the result of `toFixed(2)`; the other numeric fields are shown through the
default conversion of a number to text, not through `toFixed(2)`:
`battery.percent` and `cpu.temperature` whenever they are numbers,
`cpu.usage`, `ram.percent`, `gpu.memory_used` and `gpu.memory_total` when they
are truthy numbers. -/
theorem numeric_field_formatting (R : NumberOps N) (D : JSValue N) (g : Grid String) (x : N)
    (h : renderGrid R D = .ok g) :
    (field D "ram" "used" = .num x → R.isFalsy x = false →
      g.ramUsed = "Used: " ++ R.toFixed2 x ++ " GB") ∧
    (field D "ram" "total" = .num x → R.isFalsy x = false →
      g.ramTotal = "Total: " ++ R.toFixed2 x ++ " GB") ∧
    (field D "gpu" "load" = .num x → R.isFalsy x = false →
      g.gpu.get? 1 = some ("Load: " ++ R.toFixed2 x ++ "%")) ∧
    (field D "cpu" "usage" = .num x → R.isFalsy x = false →
      g.cpuUsage = "Usage: " ++ R.numToString x ++ "%") ∧
    (field D "ram" "percent" = .num x → R.isFalsy x = false →
      g.ramUsage = "Usage: " ++ R.numToString x ++ "%") ∧
    (field D "cpu" "temperature" = .num x →
      g.cpuTemperature = "Temperature: " ++ R.numToString x ++ "Â°C") ∧
    (field D "battery" "percent" = .num x →
      ∃ rest, g.battery = R.numToString x ++ "%" ++ rest) ∧
    (field D "gpu" "memory_used" = .num x → R.isFalsy x = false →
      ∃ total, g.gpu.get? 2
        = some ("Memory: " ++ R.numToString x ++ " / " ++ total ++ " MB")) ∧
    (field D "gpu" "memory_total" = .num x → R.isFalsy x = false →
      ∃ used, g.gpu.get? 2
        = some ("Memory: " ++ used ++ " / " ++ R.numToString x ++ " MB")) := by
  obtain ⟨e, he, ht⟩ := renderGrid_ok h
  obtain ⟨-, -, l3, l4, l5, l6, l7, l8, l9, -⟩ := metricGrid_ok_lines he
  obtain ⟨-, -, t3, t4, t5, t6, t7, t8, t9, -⟩ := Grid.text_ok_lines ht
  refine ⟨?_, ?_, ?_, ?_, ?_, ?_, ?_, ?_, ?_⟩
  · intro hf hx
    obtain ⟨props, ip, rfl, ho, hi⟩ := field_defined hf (by simp)
    simp [ramUsedLine, getProp, optChain, ho, hi, fixedOrNA, truthy_num R hx, callToFixed2,
      bind, Except.bind, pure, Except.pure] at l6
    rw [← l6] at t6
    obtain ⟨t, htx, hs⟩ := childrenText_three t6
    simp only [childText, Except.ok.injEq] at htx
    rw [hs, ← htx]
  · intro hf hx
    obtain ⟨props, ip, rfl, ho, hi⟩ := field_defined hf (by simp)
    simp [ramTotalLine, getProp, optChain, ho, hi, fixedOrNA, truthy_num R hx, callToFixed2,
      bind, Except.bind, pure, Except.pure] at l7
    rw [← l7] at t7
    obtain ⟨t, htx, hs⟩ := childrenText_three t7
    simp only [childText, Except.ok.injEq] at htx
    rw [hs, ← htx]
  · intro hf hx
    obtain ⟨props, ip, rfl, ho, hi⟩ := field_defined hf (by simp)
    obtain ⟨loadText, hl, hls⟩ := gpuLines_of_object ho l9
    simp [hi, fixedOrNA, truthy_num R hx, callToFixed2] at hl
    rw [hls] at t9
    obtain ⟨sa, sb, sc, -, hb, -, hg⟩ := linesText_three t9
    obtain ⟨t, htx, hs⟩ := childrenText_three hb
    rw [← hl] at htx
    simp only [childText, Except.ok.injEq] at htx
    rw [hg, hs, ← htx]
    rfl
  · intro hf hx
    obtain ⟨props, ip, rfl, ho, hi⟩ := field_defined hf (by simp)
    simp [cpuUsageLine, getProp, optChain, ho, hi, JSValue.or, truthy_num R hx,
      bind, Except.bind, pure, Except.pure] at l4
    rw [← l4] at t4
    obtain ⟨t, htx, hs⟩ := childrenText_three t4
    simp only [childText, Except.ok.injEq] at htx
    rw [hs, ← htx]
  · intro hf hx
    obtain ⟨props, ip, rfl, ho, hi⟩ := field_defined hf (by simp)
    simp [ramUsageLine, getProp, optChain, ho, hi, JSValue.or, truthy_num R hx,
      bind, Except.bind, pure, Except.pure] at l8
    rw [← l8] at t8
    obtain ⟨t, htx, hs⟩ := childrenText_three t8
    simp only [childText, Except.ok.injEq] at htx
    rw [hs, ← htx]
  · intro hf
    obtain ⟨props, ip, rfl, ho, hi⟩ := field_defined hf (by simp)
    simp [cpuTemperatureLine, getProp, optChain, ho, hi, strictNeNull, toStr,
      bind, Except.bind, pure, Except.pure] at l5
    rw [← l5] at t5
    simp [childrenText, childText] at t5
    rw [← t5]
    simp [String.append_assoc]
  · intro hf
    obtain ⟨props, ip, rfl, ho, hi⟩ := field_defined hf (by simp)
    simp only [batteryLine, batteryPercent, getProp, optChain, ho, hi, strictNeNull, toStr,
      bind, Except.bind, pure, Except.pure, if_true] at l3
    cases hp : batteryPlugged R (.obj props) with
    | error err => simp [hp] at l3
    | ok b =>
      simp only [hp, Except.ok.injEq] at l3
      rw [← l3] at t3
      simp only [childrenText, childText] at t3
      cases hb : childText R b with
      | error err => simp [hb] at t3
      | ok tb =>
        simp only [hb, Except.ok.injEq] at t3
        exact ⟨tb ++ "", t3.symm⟩
  · intro hf hx
    obtain ⟨props, ip, rfl, ho, hi⟩ := field_defined hf (by simp)
    obtain ⟨loadText, -, hls⟩ := gpuLines_of_object ho l9
    rw [hls] at t9
    obtain ⟨sa, sb, sc, -, -, hc, hg⟩ := linesText_three t9
    obtain ⟨su, st, hu, -, hs⟩ := childrenText_memory hc
    simp [hi, JSValue.or, truthy_num R hx, childText] at hu
    rw [hg, hs, ← hu]
    exact ⟨st, rfl⟩
  · intro hf hx
    obtain ⟨props, ip, rfl, ho, hi⟩ := field_defined hf (by simp)
    obtain ⟨loadText, -, hls⟩ := gpuLines_of_object ho l9
    rw [hls] at t9
    obtain ⟨sa, sb, sc, -, -, hc, hg⟩ := linesText_three t9
    obtain ⟨su, st, -, hst, hs⟩ := childrenText_memory hc
    simp [hi, JSValue.or, truthy_num R hx, childText] at hst
    rw [hg, hs, ← hst]
    exact ⟨su, rfl⟩

/-- C8, witness: `ram.used` is 7.5 in the document of `busyTelemetry`. -/
theorem numeric_field_formatting_witness :
    renderGrid sampleOps busyTelemetry.toJSON = .ok busyGrid ∧
    field busyTelemetry.toJSON "ram" "used" = .num .n7_5 ∧
    busyGrid.ramUsed = "Used: " ++ sampleOps.toFixed2 .n7_5 ++ " GB" :=
  ⟨by decide, rfl,
   (numeric_field_formatting sampleOps busyTelemetry.toJSON busyGrid .n7_5 (by decide)).1
      rfl rfl⟩

/-- C8, counterexample: `cpu.usage` is the number 12.5 in the document of
`busyTelemetry`; the CPU panel shows it as `12.5`, not as the `12.50` that
`toFixed(2)` gives. -/
theorem cpu_usage_not_two_decimals :
    renderGrid sampleOps busyTelemetry.toJSON = .ok busyGrid ∧
    field busyTelemetry.toJSON "cpu" "usage" = .num .n12_5 ∧
    busyGrid.cpuUsage = "Usage: 12.5%" ∧
    sampleOps.toFixed2 .n12_5 = "12.50" ∧
    busyGrid.cpuUsage ≠ "Usage: " ++ sampleOps.toFixed2 .n12_5 ++ "%" :=
  ⟨by decide, rfl, by decide, by decide, by decide⟩

end SystemDashboard
